import Mathlib

/-!
# Qt-VTK-viewer: a shallow embedding of the scene widget and the main window

The viewer shows one loaded dataset in four viewports (wireframe, flat, Gouraud and
Phong shading) that share one camera.  This file embeds

* `src/scenewidget.cpp`: the constructor, `createRenderer`, `addDataSet`,
  `configureActorProperties`, `configureLight`, `setShadingMode`, `applyShading`,
  `initRenderer`, `removeDataSet`, `zoomToExtent`, `exportSceneToJPG`;
* `src/mainwindow.cpp`: `openFile` and `showSaveFileDialog`.

Conventions of the embedding.

* VTK objects are heap objects compared by address.  Every object created with `New()`
  receives a fresh identifier taken from the counter `SceneWidget.nextId`.
* A `double` that the program only stores and never computes with is the rational
  number written in the source (`0.3`, `0.8`, `40.0`, ...).
* The VTK filters whose numerical result the program only passes on (surface extraction,
  normal generation, camera fitting) are fields of `VtkLib`.
* A null-pointer dereference is the result `none`.
* `Render()` repaints the window from the scene and changes nothing of the state that is
  modelled here, so it does not appear.
-/

namespace QtVtkViewer

/-! ## Datasets -/

/-- Three doubles: a point, a direction or an RGB colour. -/
abbrev Vec3 := ℚ × ℚ × ℚ

/-- The content of a `vtkPolyData`: points and polygons over them. -/
structure PolyData where
  points : List Vec3
  polys : List (List Nat)
deriving DecidableEq

/-- A `vtkDataSet`: either polygonal surface data or some other kind of dataset. -/
inductive DataSet where
  | polyData (p : PolyData)
  | grid (points : List Vec3) (cells : List (List Nat))
deriving DecidableEq

/-- The points of a dataset. -/
def DataSet.points : DataSet → List Vec3
  | .polyData p => p.points
  | .grid pts _ => pts

/-- The result of `GetNumberOfPoints()`. -/
def DataSet.numberOfPoints (d : DataSet) : Nat := d.points.length

/-- The cast `vtkPolyData::SafeDownCast`: the poly data itself, or null. -/
def PolyData.safeDownCast : DataSet → Option PolyData
  | .polyData p => some p
  | .grid _ _ => none

/-- An axis-aligned box as VTK stores it: `(xmin, xmax, ymin, ymax, zmin, zmax)`. -/
structure Bounds where
  xmin : ℚ
  xmax : ℚ
  ymin : ℚ
  ymax : ℚ
  zmin : ℚ
  zmax : ℚ
deriving DecidableEq

/-- The box VTK reports for geometry without points (`vtkMath::UninitializeBounds`). -/
def Bounds.uninitialized : Bounds := ⟨1, -1, 1, -1, 1, -1⟩

/-- The bounding box of a list of points. -/
def boundsOfPoints : List Vec3 → Bounds
  | [] => Bounds.uninitialized
  | p :: ps =>
    ps.foldl
      (fun b q =>
        ⟨min b.xmin q.1, max b.xmax q.1, min b.ymin q.2.1, max b.ymax q.2.1,
         min b.zmin q.2.2, max b.zmax q.2.2⟩)
      ⟨p.1, p.1, p.2.1, p.2.1, p.2.2, p.2.2⟩

/-- The result of `vtkDataSet::GetBounds()`. -/
def DataSet.getBounds (d : DataSet) : Bounds := boundsOfPoints d.points

/-! ## Actors, mappers, properties, lights -/

/-- The representation of a `vtkProperty`. -/
inductive Representation where
  | points
  | wireframe
  | surface
deriving DecidableEq

/-- The interpolation of a `vtkProperty`. -/
inductive Interpolation where
  | flat
  | gouraud
  | phong
deriving DecidableEq

/-- The fields of a `vtkProperty` the program reads or writes. -/
structure Property where
  color : Vec3
  ambient : ℚ
  diffuse : ℚ
  specular : ℚ
  specularPower : ℚ
  shading : Bool
  interpolation : Interpolation
  representation : Representation
deriving DecidableEq

/-- The state of a `vtkProperty` as its constructor leaves it: white, ambient 0, diffuse 1,
specular 0, specular power 1, shading off, Gouraud interpolation, surface representation. -/
def Property.new : Property :=
  { color := (1, 1, 1), ambient := 0, diffuse := 1, specular := 0, specularPower := 1,
    shading := false, interpolation := .gouraud, representation := .surface }

/-- The type of a `vtkLight`. -/
inductive LightType where
  | headlight
  | cameraLight
  | sceneLight
deriving DecidableEq

/-- A `vtkLight`. -/
structure Light where
  id : Nat
  lightType : LightType
  ambientColor : Vec3
  diffuseColor : Vec3
  specularColor : Vec3
  position : Vec3
  focalPoint : Vec3
  intensity : ℚ
deriving DecidableEq

/-- The state of a `vtkLight` as its constructor leaves it. -/
def Light.new (id : Nat) : Light :=
  { id := id, lightType := .sceneLight, ambientColor := (0, 0, 0), diffuseColor := (1, 1, 1),
    specularColor := (1, 1, 1), position := (0, 0, 1), focalPoint := (0, 0, 0), intensity := 1 }

/-- A `vtkDataSetMapper` with its input. -/
structure Mapper where
  id : Nat
  input : Option PolyData
deriving DecidableEq

/-- A `vtkActor` with its mapper and its property. -/
structure Actor where
  id : Nat
  mapper : Option Mapper
  property : Property
deriving DecidableEq

/-- The result of `vtkActor::GetBounds()` for an actor that was never moved: the bounds of
its mapper's input. -/
def Actor.getBounds (a : Actor) : Bounds :=
  match a.mapper with
  | some m =>
    match m.input with
    | some p => boundsOfPoints p.points
    | none => Bounds.uninitialized
  | none => Bounds.uninitialized

/-! ## Camera and renderers -/

/-- The `vtkCamera` shared by the four renderers. -/
structure Camera where
  viewUp : Vec3
  position : Vec3
  focalPoint : Vec3
deriving DecidableEq

/-- A `vtkRenderer`: its viewport `(xmin, ymin, xmax, ymax)`, its background, the actors
and the lights the program added to it, in the order of addition. -/
structure Renderer where
  viewport : ℚ × ℚ × ℚ × ℚ
  background : Vec3
  actors : List Actor
  lights : List Light
deriving DecidableEq

/-- The method `vtkRenderer::AddActor`: appends the actor unless the renderer holds that
very object already. -/
def Renderer.addActor (r : Renderer) (a : Actor) : Renderer :=
  if r.actors.any (fun b => b.id == a.id) then r else { r with actors := r.actors ++ [a] }

/-- The method `vtkRenderer::RemoveActor`: removes that object from the renderer. -/
def Renderer.removeActor (r : Renderer) (a : Actor) : Renderer :=
  { r with actors := r.actors.eraseP (fun b => b.id == a.id) }

/-- The method `vtkRenderer::AddLight`: appends the light. -/
def Renderer.addLight (r : Renderer) (l : Light) : Renderer :=
  { r with lights := r.lights ++ [l] }

/-- The call `GetActors()->GetLastActor()`: the last actor, or null. -/
def Renderer.getLastActor (r : Renderer) : Option Actor := r.actors.getLast?

/-- The VTK algorithms whose output the program hands on without looking into it. -/
structure VtkLib where
  /-- Output of `vtkGeometryFilter` on a dataset. -/
  geometryFilter : DataSet → PolyData
  /-- Output of `vtkPolyDataNormals` with splitting, point normals and cell normals on. -/
  polyDataNormals : PolyData → PolyData
  /-- The camera after `vtkRenderer::ResetCamera(bounds)`. -/
  resetCamera : Camera → Bounds → Camera

/-! ## The scene widget -/

/-- The four renderer members of `SceneWidget`. -/
inductive RendererId where
  | topLeft
  | topRight
  | bottomLeft
  | bottomRight
deriving DecidableEq

/-- The state of a `SceneWidget`, with the lines written to `std::cerr`. -/
structure SceneWidget where
  currentDataSet : Option DataSet
  currentNormals : Option PolyData
  topLeftRenderer : Renderer
  topRightRenderer : Renderer
  bottomLeftRenderer : Renderer
  bottomRightRenderer : Renderer
  camera : Camera
  nextId : Nat
  cerr : List String
deriving DecidableEq

/-- The renderer behind a member. -/
def SceneWidget.renderer (s : SceneWidget) : RendererId → Renderer
  | .topLeft => s.topLeftRenderer
  | .topRight => s.topRightRenderer
  | .bottomLeft => s.bottomLeftRenderer
  | .bottomRight => s.bottomRightRenderer

/-- Store a renderer behind a member. -/
def SceneWidget.setRenderer (s : SceneWidget) (i : RendererId) (r : Renderer) : SceneWidget :=
  match i with
  | .topLeft => { s with topLeftRenderer := r }
  | .topRight => { s with topRightRenderer := r }
  | .bottomLeft => { s with bottomLeftRenderer := r }
  | .bottomRight => { s with bottomRightRenderer := r }

/-- The renderers of the render window in the order `createRenderer` added them. -/
def renderWindowRenderers : List RendererId :=
  [.topLeft, .topRight, .bottomLeft, .bottomRight]

/-- The function `SceneWidget::createRenderer`: a renderer on the shared camera, with gray
background and the given viewport. -/
def createRenderer (viewport : ℚ × ℚ × ℚ × ℚ) : Renderer :=
  { viewport := viewport, background := (0.3, 0.3, 0.3), actors := [], lights := [] }

/-- The constructor `SceneWidget::SceneWidget`. -/
def SceneWidget.new : SceneWidget :=
  { currentDataSet := none
    currentNormals := none
    topLeftRenderer := createRenderer (0.0, 0.5, 0.5, 1.0)
    topRightRenderer := createRenderer (0.5, 0.5, 1.0, 1.0)
    bottomLeftRenderer := createRenderer (0.0, 0.0, 0.5, 0.5)
    bottomRightRenderer := createRenderer (0.5, 0.0, 1.0, 0.5)
    camera := { viewUp := (0, 1, 0), position := (0, 0, 10), focalPoint := (0, 0, 0) }
    nextId := 0
    cerr := [] }

/-- The function `configureActorProperties`. -/
def configureActorProperties (prop : Property) : Property :=
  { prop with
    color := (0, 1, 0), ambient := 0.3, diffuse := 0.3, specular := 0.8,
    specularPower := 40.0, shading := true }

/-- The function `configureLight`. -/
def configureLight (light : Light) : Light :=
  { light with
    lightType := .sceneLight, ambientColor := (1, 1, 1), diffuseColor := (1, 1, 1),
    specularColor := (1, 1, 1), position := (-100, 100, 25), focalPoint := (0, 0, 0),
    intensity := 0.8 }

/-- The function `setShadingMode`: the returned flag and the property afterwards. -/
def setShadingMode (prop : Property) (displayMode : String) : Bool × Property :=
  if displayMode = "Flat shading" then (true, { prop with interpolation := .flat })
  else if displayMode = "Gouraud shading" then (true, { prop with interpolation := .gouraud })
  else if displayMode = "Phong shading" then (true, { prop with interpolation := .phong })
  else (false, prop)

/-- The function `applyShading`: the actor and the light afterwards, and the lines it wrote
to `std::cerr`. -/
def applyShading (actor : Actor) (light : Light) (displayMode : String) :
    Actor × Light × List String :=
  let prop := configureActorProperties actor.property
  let r := setShadingMode prop displayMode
  if r.1 = false then
    ({ actor with property := r.2 }, light,
      ["Error: Unsupported shading mode \x27" ++ displayMode ++ "\x27."])
  else
    ({ actor with property := r.2 }, configureLight light, [])

/-- The function `SceneWidget::initRenderer` on one of the four renderers.  The actor
takes the identifier `nextId`, its mapper `nextId + 1`, and the light of a shaded mode
`nextId + 2`.  The last statement dereferences `currentDataSet`. -/
def initRenderer (vtk : VtkLib) (s : SceneWidget) (i : RendererId) (displayMode : String) :
    Option SceneWidget :=
  let mapper : Mapper := { id := s.nextId + 1, input := s.currentNormals }
  let actor : Actor := { id := s.nextId, mapper := some mapper, property := Property.new }
  let s1 : SceneWidget := { s with nextId := s.nextId + 2 }
  let r : Actor × SceneWidget :=
    if displayMode = "wireframe" then
      ({ actor with property := { actor.property with representation := .wireframe } }, s1)
    else if displayMode = "Flat shading" ∨ displayMode = "Gouraud shading"
        ∨ displayMode = "Phong shading" then
      let light := Light.new s1.nextId
      let s2 : SceneWidget := { s1 with nextId := s1.nextId + 1 }
      let shaded := applyShading actor light displayMode
      (shaded.1,
        { s2.setRenderer i ((s2.renderer i).addLight shaded.2.1) with
          cerr := s2.cerr ++ shaded.2.2 })
    else
      (actor, s1)
  let s3 := r.2.setRenderer i ((r.2.renderer i).addActor r.1)
  match s3.currentDataSet with
  | none => none
  | some d => some { s3 with camera := vtk.resetCamera s3.camera d.getBounds }

/-- The function `SceneWidget::addDataSet` on a non-null dataset. -/
def addDataSet (vtk : VtkLib) (s : SceneWidget) (dataSet : DataSet) : Option SceneWidget :=
  let s0 : SceneWidget := { s with currentDataSet := some dataSet }
  let polyData : PolyData :=
    match PolyData.safeDownCast dataSet with
    | some p => p
    | none => vtk.geometryFilter dataSet
  let s1 : SceneWidget := { s0 with currentNormals := some (vtk.polyDataNormals polyData) }
  (((initRenderer vtk s1 .topLeft "wireframe").bind
    (fun s2 => initRenderer vtk s2 .topRight "Flat shading")).bind
    (fun s3 => initRenderer vtk s3 .bottomLeft "Gouraud shading")).bind
    (fun s4 => initRenderer vtk s4 .bottomRight "Phong shading")

/-- One turn of the loop of `SceneWidget::removeDataSet`. -/
def removeLastActor (r : Renderer) : Renderer :=
  match r.getLastActor with
  | some actor => r.removeActor actor
  | none => r

/-- The function `SceneWidget::removeDataSet`. -/
def removeDataSet (s : SceneWidget) : SceneWidget :=
  renderWindowRenderers.foldl (fun t i => t.setRenderer i (removeLastActor (t.renderer i))) s

/-- The function `SceneWidget::zoomToExtent`. -/
def zoomToExtent (vtk : VtkLib) (s : SceneWidget) : SceneWidget :=
  renderWindowRenderers.foldl
    (fun t i =>
      match (t.renderer i).getLastActor with
      | some actor => { t with camera := vtk.resetCamera t.camera actor.getBounds }
      | none => t)
    s

/-- The function `SceneWidget::exportSceneToJPG`: the returned flag and the file names it
hands to the `vtkJPEGWriter`. -/
def exportSceneToJPG (filename : String) : Bool × List String :=
  if filename.isEmpty then (false, []) else (true, [filename])

/-! ## Qt strings -/

/-- The method `QChar::toLower` as far as it can produce an ASCII letter: the letters `A`
to `Z`, and the Kelvin sign, which Unicode lower-cases and case-folds to `k`.  Every
other character stays as it is, which makes no difference when the result is compared with
one of the ASCII strings of this program. -/
def qCharToLower (c : Char) : Char :=
  if c = Char.ofNat 0x212A then 'k' else c.toLower

/-- The method `QString::toLower`. -/
def qToLower (s : String) : String := String.mk (s.data.map qCharToLower)

/-- The characters after the last occurrence of `c`, if `c` occurs. -/
def afterLast (c : Char) : List Char → Option (List Char)
  | [] => none
  | x :: xs =>
    match afterLast c xs with
    | some r => some r
    | none => if x = c then some xs else none

/-- The method `QFileInfo::suffix`: the characters after the last dot of the file name,
which is the part of the path after the last slash. -/
def suffix (path : String) : String :=
  let name := (afterLast '/' path.data).getD path.data
  String.mk ((afterLast '.' name).getD [])

/-- The method `QString::endsWith` with `Qt::CaseInsensitive`. -/
def endsWithCI (s t : String) : Bool :=
  decide (t.data.map qCharToLower <:+ s.data.map qCharToLower)

/-- The conversion `toStdString().c_str()` read back as a `std::string`: the characters
before the first NUL. -/
def cStr (s : String) : String := String.mk (s.data.takeWhile (fun c => c ≠ Char.ofNat 0))

/-! ## The main window -/

/-- The VTK readers `MainWindow::openFile` can create. -/
inductive ReaderKind where
  | dataSetReader
  | objReader
  | plyReader
  | stlReader
deriving DecidableEq

/-- A reader that was created, given a file name and updated. -/
structure ReaderCall where
  reader : ReaderKind
  fileName : String
deriving DecidableEq

/-- The files on disk as the readers see them: the data object a reader of the given kind
puts out after `Update()` on the given file name, or null. -/
structure Files where
  output : ReaderKind → String → Option DataSet

/-- The map `readerMapping` of `MainWindow::openFile`. -/
def readerMapping : List (String × ReaderKind) :=
  [("obj", .objReader), ("ply", .plyReader), ("stl", .stlReader)]

/-- The extension `MainWindow::openFile` looks at: `fileInfo.suffix().toLower()`. -/
def extensionOf (fileName : String) : String := qToLower (suffix fileName)

/-- The reader `MainWindow::openFile` creates for an extension: none when it returns
early, the dataset reader for `vtk`, otherwise the reader the map holds. -/
def selectReader (extension : String) : Option ReaderKind :=
  if !(readerMapping.lookup extension).isSome && extension != "vtk" then none
  else if extension == "vtk" then some .dataSetReader
  else readerMapping.lookup extension

/-- The dataset `MainWindow::openFile` obtains from the reader: the output cast to
`vtkDataSet` for the dataset reader, to `vtkPolyData` for the others. -/
def readDataSet (files : Files) (reader : ReaderKind) (fileName : String) : Option DataSet :=
  match reader with
  | .dataSetReader => files.output .dataSetReader (cStr fileName)
  | k => ((files.output k (cStr fileName)).bind PolyData.safeDownCast).map DataSet.polyData

/-- The reading part of `MainWindow::openFile`: the readers it ran and the dataset it
holds before the final test. -/
def loadDataSet (files : Files) (fileName : String) : List ReaderCall × Option DataSet :=
  match selectReader (extensionOf fileName) with
  | none => ([], none)
  | some k => ([⟨k, cStr fileName⟩], readDataSet files k fileName)

/-- What a call of `MainWindow::openFile` leaves behind. -/
structure Opened where
  scene : SceneWidget
  readerCalls : List ReaderCall

/-- The function `MainWindow::openFile`. -/
def openFile (files : Files) (vtk : VtkLib) (s : SceneWidget) (fileName : String) : Option Opened :=
  let s1 := removeDataSet s
  let r := loadDataSet files fileName
  match r.2 with
  | some d => (addDataSet vtk s1 d).map (fun s2 => ⟨s2, r.1⟩)
  | none => some ⟨s1, r.1⟩

/-- The message box a call of `MainWindow::showSaveFileDialog` ends with. -/
inductive MessageBox where
  | information (title text : String)
  | critical (title text : String)
deriving DecidableEq

/-- What a call of `MainWindow::showSaveFileDialog` leaves behind: the argument of
`exportSceneToJPG` if it was called, the file names handed to the JPEG writer, and the
message box shown. -/
structure Saved where
  exportArgument : Option String
  jpegFiles : List String
  message : Option MessageBox
deriving DecidableEq

/-- The function `MainWindow::showSaveFileDialog` once the dialog returned `filePath`. -/
def showSaveFileDialog (filePath : String) : Saved :=
  if filePath.isEmpty then ⟨none, [], none⟩
  else
    let filePath :=
      if !endsWithCI filePath ".jpg" && !endsWithCI filePath ".jpeg" then filePath ++ ".jpg"
      else filePath
    let r := exportSceneToJPG (cStr filePath)
    if r.1 then
      ⟨some (cStr filePath), r.2, some (.information "Success" "Image saved successfully!")⟩
    else
      ⟨some (cStr filePath), r.2, some (.critical "Error" "Failed to save the image.")⟩

/-! ## Runs and sample inputs -/

/-- The public operations of `SceneWidget` that change the scene. -/
inductive SceneOp where
  | addDataSet (d : DataSet)
  | removeDataSet
  | zoomToExtent

/-- Whether an operation is the clear. -/
def SceneOp.isClear : SceneOp → Bool
  | .removeDataSet => true
  | _ => false

/-- One public operation. -/
def SceneOp.apply (vtk : VtkLib) (s : SceneWidget) : SceneOp → Option SceneWidget
  | .addDataSet d => QtVtkViewer.addDataSet vtk s d
  | .removeDataSet => some (QtVtkViewer.removeDataSet s)
  | .zoomToExtent => some (QtVtkViewer.zoomToExtent vtk s)

/-- A sequence of public operations, first to last. -/
def runOps (vtk : VtkLib) (s : SceneWidget) : List SceneOp → Option SceneWidget
  | [] => some s
  | op :: ops => (op.apply vtk s).bind (fun t => runOps vtk t ops)

/-- The number of loads in a sequence of operations. -/
def countLoads : List SceneOp → Nat
  | [] => 0
  | .addDataSet _ :: ops => countLoads ops + 1
  | .removeDataSet :: ops => countLoads ops
  | .zoomToExtent :: ops => countLoads ops

/-- A sequence of `MainWindow::openFile` calls, each with the files as they are on disk
at that moment. -/
def runOpenFiles (vtk : VtkLib) (s : SceneWidget) : List (Files × String) → Option SceneWidget
  | [] => some s
  | c :: cs => (openFile c.1 vtk s c.2).bind (fun o => runOpenFiles vtk o.scene cs)

/-- Every actor and light of the scene was allocated before `nextId`. -/
def SceneWidget.Fresh (s : SceneWidget) : Prop :=
  ∀ i : RendererId,
    (∀ a ∈ (s.renderer i).actors, a.id < s.nextId) ∧
    (∀ l ∈ (s.renderer i).lights, l.id < s.nextId)

/-- A region of the window, `(xmin, ymin, xmax, ymax)`, contains a point. -/
def regionContains (v : ℚ × ℚ × ℚ × ℚ) (x y : ℝ) : Prop :=
  (v.1 : ℝ) ≤ x ∧ x ≤ (v.2.2.1 : ℝ) ∧ (v.2.1 : ℝ) ≤ y ∧ y ≤ (v.2.2.2 : ℝ)

/-- A point lies in the interior of a region. -/
def regionInterior (v : ℚ × ℚ × ℚ × ℚ) (x y : ℝ) : Prop :=
  (v.1 : ℝ) < x ∧ x < (v.2.2.1 : ℝ) ∧ (v.2.1 : ℝ) < y ∧ y < (v.2.2.2 : ℝ)

/-- A library instance for evaluating the program on concrete inputs: surface extraction
keeps the points and takes the cells as polygons, normal generation keeps the geometry,
camera fitting aims the camera at the lower corner of the box. -/
def sampleVtk : VtkLib :=
  { geometryFilter := fun d =>
      match d with
      | .polyData p => p
      | .grid pts cells => ⟨pts, cells⟩
    polyDataNormals := fun p => p
    resetCamera := fun c b => { c with focalPoint := (b.xmin, b.ymin, b.zmin) } }

/-- A dataset without points. -/
def emptyDataSet : DataSet := .polyData ⟨[], []⟩

/-- One triangle. -/
def triangle : DataSet := .polyData ⟨[(0, 0, 0), (1, 0, 0), (0, 1, 0)], [[0, 1, 2]]⟩

/-- A disk on which every reader finds the triangle. -/
def sampleFiles : Files := { output := fun _ _ => some triangle }

/-- A disk on which no reader finds a dataset. -/
def noFiles : Files := { output := fun _ _ => none }

/-- The scene after `mesh.stl` was opened from the sample disk in a fresh widget. -/
def loadedScene : SceneWidget :=
  match openFile sampleFiles sampleVtk SceneWidget.new "mesh.stl" with
  | some o => o.scene
  | none => SceneWidget.new

/-! ## Lemmas on renderers and scenes -/


theorem initRenderer_wire (vtk : VtkLib) (s : SceneWidget) (i : RendererId) (d : DataSet)
    (hd : s.currentDataSet = some d) :
    ∃ t, initRenderer vtk s i "wireframe" = some t ∧
      t.currentDataSet = s.currentDataSet ∧ t.currentNormals = s.currentNormals ∧
      t.nextId = s.nextId + 2 ∧ t.cerr = s.cerr ∧
      (∀ j, j ≠ i → t.renderer j = s.renderer j) ∧
      t.renderer i = (s.renderer i).addActor
        ⟨s.nextId, some ⟨s.nextId + 1, s.currentNormals⟩,
          { Property.new with representation := .wireframe }⟩ := by
  cases s
  cases hd
  cases i <;>
    refine ⟨_, rfl, rfl, rfl, rfl, rfl, ?_, rfl⟩ <;>
    intro j hj <;> cases j <;> first | rfl | exact absurd rfl hj

theorem initRenderer_shaded (vtk : VtkLib) (s : SceneWidget) (i : RendererId) (d : DataSet)
    (hd : s.currentDataSet = some d) (mode : String) (interp : Interpolation)
    (hm : (mode, interp) ∈ [("Flat shading", Interpolation.flat),
      ("Gouraud shading", Interpolation.gouraud), ("Phong shading", Interpolation.phong)]) :
    ∃ t, initRenderer vtk s i mode = some t ∧
      t.currentDataSet = s.currentDataSet ∧ t.currentNormals = s.currentNormals ∧
      t.nextId = s.nextId + 3 ∧ t.cerr = s.cerr ∧
      (∀ j, j ≠ i → t.renderer j = s.renderer j) ∧
      t.renderer i = ((s.renderer i).addLight (configureLight (Light.new (s.nextId + 2)))).addActor
        ⟨s.nextId, some ⟨s.nextId + 1, s.currentNormals⟩,
          { configureActorProperties Property.new with interpolation := interp }⟩ := by
  cases s
  cases hd
  simp only [List.mem_cons, Prod.mk.injEq, List.mem_singleton, List.not_mem_nil, or_false] at hm
  rcases hm with ⟨rfl, rfl⟩ | ⟨rfl, rfl⟩ | ⟨rfl, rfl⟩ <;>
  cases i <;>
    refine ⟨_, rfl, rfl, rfl, rfl, ?_, ?_, rfl⟩ <;>
    first
    | exact List.append_nil _
    | (intro j hj ; cases j <;> first | rfl | exact absurd rfl hj)

theorem initRenderer_other (vtk : VtkLib) (s : SceneWidget) (i : RendererId) (d : DataSet)
    (hd : s.currentDataSet = some d) (mode : String)
    (h1 : mode ≠ "wireframe") (h2 : mode ≠ "Flat shading") (h3 : mode ≠ "Gouraud shading")
    (h4 : mode ≠ "Phong shading") :
    ∃ t, initRenderer vtk s i mode = some t ∧
      t.currentDataSet = s.currentDataSet ∧ t.currentNormals = s.currentNormals ∧
      t.nextId = s.nextId + 2 ∧ t.cerr = s.cerr ∧
      (∀ j, j ≠ i → t.renderer j = s.renderer j) ∧
      t.renderer i = (s.renderer i).addActor
        ⟨s.nextId, some ⟨s.nextId + 1, s.currentNormals⟩, Property.new⟩ := by
  cases s
  cases hd
  unfold initRenderer
  simp only [h1, h2, h3, h4, if_false, or_self]
  cases i <;>
    refine ⟨_, rfl, rfl, rfl, rfl, rfl, ?_, rfl⟩ <;>
    intro j hj <;> cases j <;> first | rfl | exact absurd rfl hj


theorem Renderer.lights_addActor (r : Renderer) (a : Actor) : (r.addActor a).lights = r.lights := by
  unfold Renderer.addActor
  split <;> rfl

theorem Renderer.actors_addActor_of_fresh (r : Renderer) (a : Actor)
    (h : ∀ b ∈ r.actors, b.id ≠ a.id) : (r.addActor a).actors = r.actors ++ [a] := by
  unfold Renderer.addActor
  have : r.actors.any (fun b => b.id == a.id) = false := by
    rw [List.any_eq_false]
    intro b hb
    simpa using h b hb
  simp [this]

theorem Renderer.actors_addActor_of_nil (r : Renderer) (a : Actor) (h : r.actors = []) :
    (r.addActor a).actors = [a] := by
  have := Renderer.actors_addActor_of_fresh r a (by simp [h])
  simpa [h] using this

theorem addDataSet_spec (vtk : VtkLib) (s : SceneWidget) (d : DataSet) :
    ∃ t, addDataSet vtk s d = some t ∧
      t.currentDataSet = some d ∧
      t.currentNormals = some (vtk.polyDataNormals
        (match PolyData.safeDownCast d with
          | some p => p
          | none => vtk.geometryFilter d)) ∧
      t.nextId = s.nextId + 11 ∧ t.cerr = s.cerr ∧
      t.renderer .topLeft = (s.renderer .topLeft).addActor
        ⟨s.nextId, some ⟨s.nextId + 1, t.currentNormals⟩,
          { Property.new with representation := .wireframe }⟩ ∧
      t.renderer .topRight =
        ((s.renderer .topRight).addLight (configureLight (Light.new (s.nextId + 4)))).addActor
          ⟨s.nextId + 2, some ⟨s.nextId + 3, t.currentNormals⟩,
            { configureActorProperties Property.new with interpolation := .flat }⟩ ∧
      t.renderer .bottomLeft =
        ((s.renderer .bottomLeft).addLight (configureLight (Light.new (s.nextId + 7)))).addActor
          ⟨s.nextId + 5, some ⟨s.nextId + 6, t.currentNormals⟩,
            { configureActorProperties Property.new with interpolation := .gouraud }⟩ ∧
      t.renderer .bottomRight =
        ((s.renderer .bottomRight).addLight (configureLight (Light.new (s.nextId + 10)))).addActor
          ⟨s.nextId + 8, some ⟨s.nextId + 9, t.currentNormals⟩,
            { configureActorProperties Property.new with interpolation := .phong }⟩ := by
  obtain ⟨t1, e1, d1, n1, i1, c1, o1, r1⟩ := initRenderer_wire vtk
    { s with
      currentDataSet := some d
      currentNormals := some (vtk.polyDataNormals
        (match PolyData.safeDownCast d with
          | some p => p
          | none => vtk.geometryFilter d)) } .topLeft d rfl
  obtain ⟨t2, e2, d2, n2, i2, c2, o2, r2⟩ := initRenderer_shaded vtk t1 .topRight d
    (d1.trans rfl) "Flat shading" .flat (by simp)
  obtain ⟨t3, e3, d3, n3, i3, c3, o3, r3⟩ := initRenderer_shaded vtk t2 .bottomLeft d
    (d2.trans (d1.trans rfl)) "Gouraud shading" .gouraud (by simp)
  obtain ⟨t4, e4, d4, n4, i4, c4, o4, r4⟩ := initRenderer_shaded vtk t3 .bottomRight d
    (d3.trans (d2.trans (d1.trans rfl))) "Phong shading" .phong (by simp)
  refine ⟨t4, ?_, ?_, ?_, ?_, ?_, ?_, ?_, ?_, ?_⟩
  · unfold addDataSet
    simp only [e1, e2, e3, e4, Option.some_bind, Option.bind_eq_bind]
  · rw [d4, d3, d2, d1]
  · rw [n4, n3, n2, n1]
  · rw [i4, i3, i2, i1]
  · rw [c4, c3, c2, c1]
  · rw [o4 _ (by decide), o3 _ (by decide), o2 _ (by decide), r1, n4, n3, n2, n1]
    rfl
  · rw [o4 _ (by decide), o3 _ (by decide), r2, o1 _ (by decide), i1, n4, n3, n2]
    rfl
  · rw [o4 _ (by decide), r3, o2 _ (by decide), o1 _ (by decide), i2, i1, n4, n3]
    rfl
  · rw [r4, o3 _ (by decide), o2 _ (by decide), o1 _ (by decide), i3, i2, i1, n4]
    rfl

theorem Renderer.lights_addLight (r : Renderer) (l : Light) :
    (r.addLight l).lights = r.lights ++ [l] := rfl

theorem lights_removeLastActor (r : Renderer) : (removeLastActor r).lights = r.lights := by
  unfold removeLastActor
  split <;> rfl

theorem actors_removeLastActor_of_nil (r : Renderer) (h : r.actors = []) :
    removeLastActor r = r := by
  unfold removeLastActor Renderer.getLastActor
  simp [h]

theorem actors_removeLastActor_sublist (r : Renderer) :
    (removeLastActor r).actors.Sublist r.actors := by
  unfold removeLastActor
  split
  · exact List.eraseP_sublist _
  · exact List.Sublist.refl _

theorem length_actors_removeLastActor (r : Renderer) :
    (removeLastActor r).actors.length = r.actors.length - 1 := by
  unfold removeLastActor Renderer.getLastActor
  cases h : r.actors.getLast? with
  | none =>
    have : r.actors = [] := by simpa using h
    simp [this]
  | some a =>
    obtain ⟨ys, hys⟩ := List.getLast?_eq_some_iff.mp h
    have hmem : a ∈ r.actors := by simp [hys]
    simp only [Renderer.removeActor]
    rw [List.length_eraseP_of_mem hmem (by simp)]

theorem actors_removeLastActor_of_nodup (r : Renderer)
    (h : (r.actors.map Actor.id).Nodup) : (removeLastActor r).actors = r.actors.dropLast := by
  unfold removeLastActor Renderer.getLastActor
  cases hl : r.actors.getLast? with
  | none =>
    have : r.actors = [] := by simpa using hl
    simp [this]
  | some a =>
    obtain ⟨ys, hys⟩ := List.getLast?_eq_some_iff.mp hl
    simp only [Renderer.removeActor, hys, List.dropLast_concat]
    rw [hys, List.map_append, List.nodup_append] at h
    have hno : ∀ b ∈ ys, ¬ (b.id == a.id) = true := by
      intro b hb hba
      have hid : b.id = a.id := by simpa using hba
      exact h.2.2 (List.mem_map_of_mem Actor.id hb) (by simp [hid])
    rw [List.eraseP_append_right _ hno]
    simp

theorem actors_removeLastActor_of_le_one (r : Renderer) (h : r.actors.length ≤ 1) :
    (removeLastActor r).actors = [] := by
  have := length_actors_removeLastActor r
  apply List.eq_nil_of_length_eq_zero
  omega

theorem removeLastActor_eq_self_iff (r : Renderer) : removeLastActor r = r ↔ r.actors = [] := by
  constructor
  · intro h
    have := length_actors_removeLastActor r
    rw [h] at this
    apply List.eq_nil_of_length_eq_zero
    omega
  · exact actors_removeLastActor_of_nil r

theorem renderer_removeDataSet (s : SceneWidget) (i : RendererId) :
    (removeDataSet s).renderer i = removeLastActor (s.renderer i) := by
  cases s
  cases i <;> rfl

theorem currentDataSet_removeDataSet (s : SceneWidget) :
    (removeDataSet s).currentDataSet = s.currentDataSet := by
  cases s
  rfl

theorem currentNormals_removeDataSet (s : SceneWidget) :
    (removeDataSet s).currentNormals = s.currentNormals := by
  cases s
  rfl

theorem nextId_removeDataSet (s : SceneWidget) : (removeDataSet s).nextId = s.nextId := by
  cases s
  rfl

theorem cerr_removeDataSet (s : SceneWidget) : (removeDataSet s).cerr = s.cerr := by
  cases s
  rfl

theorem camera_removeDataSet (s : SceneWidget) : (removeDataSet s).camera = s.camera := by
  cases s
  rfl

theorem SceneWidget.ext_renderers (s t : SceneWidget) (h1 : s.currentDataSet = t.currentDataSet)
    (h2 : s.currentNormals = t.currentNormals) (h3 : ∀ i, s.renderer i = t.renderer i)
    (h4 : s.camera = t.camera) (h5 : s.nextId = t.nextId) (h6 : s.cerr = t.cerr) : s = t := by
  cases s
  cases t
  have a := h3 .topLeft
  have b := h3 .topRight
  have c := h3 .bottomLeft
  have e := h3 .bottomRight
  simp only [SceneWidget.renderer] at a b c e
  simp only at h1 h2 h4 h5 h6
  subst h1 h2 h4 h5 h6 a b c e
  rfl

theorem zoom_fold (vtk : VtkLib) (l : List RendererId) (s : SceneWidget) :
    ∃ c, l.foldl
      (fun t i =>
        match (t.renderer i).getLastActor with
        | some actor => { t with camera := vtk.resetCamera t.camera actor.getBounds }
        | none => t) s = { s with camera := c } := by
  induction l generalizing s with
  | nil => exact ⟨s.camera, rfl⟩
  | cons i l ih =>
    simp only [List.foldl_cons]
    cases (s.renderer i).getLastActor with
    | none => exact ih s
    | some a =>
      obtain ⟨c, hc⟩ := ih { s with camera := vtk.resetCamera s.camera a.getBounds }
      exact ⟨c, hc⟩

theorem zoomToExtent_eq (vtk : VtkLib) (s : SceneWidget) :
    ∃ c, zoomToExtent vtk s = { s with camera := c } :=
  zoom_fold vtk renderWindowRenderers s

theorem loadedScene_fresh : loadedScene.Fresh := by
  intro i
  cases i <;> exact ⟨by decide, by decide⟩

theorem loadedScene_currentDataSet : loadedScene.currentDataSet = some triangle := by
  decide

theorem addDataSet_lights (vtk : VtkLib) (s : SceneWidget) (d : DataSet) :
    ∃ t, addDataSet vtk s d = some t ∧ t.nextId = s.nextId + 11 ∧
      (t.renderer .topLeft).lights = (s.renderer .topLeft).lights ∧
      ∀ i, i ≠ RendererId.topLeft → ∃ l, (t.renderer i).lights = (s.renderer i).lights ++ [l] ∧
        s.nextId ≤ l.id ∧ l.id < t.nextId ∧ l = configureLight (Light.new l.id) := by
  obtain ⟨t, e, -, -, hn, -, r1, r2, r3, r4⟩ := addDataSet_spec vtk s d
  refine ⟨t, e, hn, ?_, ?_⟩
  · rw [r1, Renderer.lights_addActor]
  · intro i hi
    cases i with
    | topLeft => exact absurd rfl hi
    | topRight =>
      refine ⟨configureLight (Light.new (s.nextId + 4)), ?_, ?_, ?_, rfl⟩
      · rw [r2, Renderer.lights_addActor, Renderer.lights_addLight]
      · exact Nat.le_add_right _ _
      · rw [hn]
        exact Nat.add_lt_add_left (by decide) _
    | bottomLeft =>
      refine ⟨configureLight (Light.new (s.nextId + 7)), ?_, ?_, ?_, rfl⟩
      · rw [r3, Renderer.lights_addActor, Renderer.lights_addLight]
      · exact Nat.le_add_right _ _
      · rw [hn]
        exact Nat.add_lt_add_left (by decide) _
    | bottomRight =>
      refine ⟨configureLight (Light.new (s.nextId + 10)), ?_, ?_, ?_, rfl⟩
      · rw [r4, Renderer.lights_addActor, Renderer.lights_addLight]
      · exact Nat.le_add_right _ _
      · rw [hn]
        exact Nat.add_lt_add_left (by decide) _

theorem addDataSet_actors (vtk : VtkLib) (s : SceneWidget) (d : DataSet)
    (h : ∀ i, ∀ b ∈ (s.renderer i).actors, b.id < s.nextId) :
    ∃ t, addDataSet vtk s d = some t ∧ t.nextId = s.nextId + 11 ∧
      ∀ i, ∃ a, (t.renderer i).actors = (s.renderer i).actors ++ [a] ∧
        s.nextId ≤ a.id ∧ a.id < t.nextId ∧
        a.mapper = some ⟨a.id + 1, t.currentNormals⟩ := by
  obtain ⟨t, e, -, -, hn, -, r1, r2, r3, r4⟩ := addDataSet_spec vtk s d
  have hne : ∀ (i : RendererId) (k : Nat), ∀ b ∈ (s.renderer i).actors, b.id ≠ s.nextId + k :=
    fun i k b hb => Nat.ne_of_lt (Nat.lt_add_right k (h i b hb))
  refine ⟨t, e, hn, ?_⟩
  intro i
  cases i with
  | topLeft =>
    rw [r1]
    exact ⟨_, Renderer.actors_addActor_of_fresh _ _ (hne .topLeft 0), Nat.le_refl _,
      by rw [hn]; exact Nat.lt_add_of_pos_right (by decide), rfl⟩
  | topRight =>
    rw [r2]
    exact ⟨_, Renderer.actors_addActor_of_fresh _ _ (hne .topRight 2), Nat.le_add_right _ _,
      by rw [hn]; exact Nat.add_lt_add_left (by decide) _, rfl⟩
  | bottomLeft =>
    rw [r3]
    exact ⟨_, Renderer.actors_addActor_of_fresh _ _ (hne .bottomLeft 5), Nat.le_add_right _ _,
      by rw [hn]; exact Nat.add_lt_add_left (by decide) _, rfl⟩
  | bottomRight =>
    rw [r4]
    exact ⟨_, Renderer.actors_addActor_of_fresh _ _ (hne .bottomRight 8), Nat.le_add_right _ _,
      by rw [hn]; exact Nat.add_lt_add_left (by decide) _, rfl⟩

theorem addDataSet_actors_of_nil (vtk : VtkLib) (s : SceneWidget) (d : DataSet)
    (h : ∀ i, (s.renderer i).actors = []) :
    ∃ t, addDataSet vtk s d = some t ∧ ∀ i, (t.renderer i).actors.length = 1 := by
  obtain ⟨t, e, -, -, -, -, r1, r2, r3, r4⟩ := addDataSet_spec vtk s d
  refine ⟨t, e, ?_⟩
  intro i
  cases i with
  | topLeft => rw [r1, Renderer.actors_addActor_of_nil _ _ (h .topLeft)]; rfl
  | topRight =>
    rw [r2, Renderer.actors_addActor_of_nil (Renderer.addLight _ _) _ (h .topRight)]; rfl
  | bottomLeft =>
    rw [r3, Renderer.actors_addActor_of_nil (Renderer.addLight _ _) _ (h .bottomLeft)]; rfl
  | bottomRight =>
    rw [r4, Renderer.actors_addActor_of_nil (Renderer.addLight _ _) _ (h .bottomRight)]; rfl

theorem addDataSet_fresh (vtk : VtkLib) (s t : SceneWidget) (d : DataSet) (hf : s.Fresh)
    (e : addDataSet vtk s d = some t) : t.Fresh := by
  obtain ⟨t1, e1, hn, ha⟩ := addDataSet_actors vtk s d (fun i => (hf i).1)
  obtain ⟨t2, e2, -, hl0, hl⟩ := addDataSet_lights vtk s d
  have h1 : t1 = t := Option.some.inj (e1.symm.trans e)
  have h2 : t2 = t := Option.some.inj (e2.symm.trans e)
  rw [h1] at hn ha
  rw [h2] at hl0 hl
  intro i
  constructor
  · obtain ⟨a, hact, -, hlt, -⟩ := ha i
    intro b hb
    rw [hact, List.mem_append, List.mem_singleton] at hb
    rcases hb with hb | rfl
    · rw [hn]
      exact Nat.lt_add_right 11 ((hf i).1 b hb)
    · exact hlt
  · intro b hb
    by_cases hi : i = RendererId.topLeft
    · subst hi
      rw [hl0] at hb
      rw [hn]
      exact Nat.lt_add_right 11 ((hf _).2 b hb)
    · obtain ⟨l, hlig, -, hlt, -⟩ := hl i hi
      rw [hlig, List.mem_append, List.mem_singleton] at hb
      rcases hb with hb | rfl
      · rw [hn]
        exact Nat.lt_add_right 11 ((hf i).2 b hb)
      · exact hlt

theorem removeDataSet_fresh (s : SceneWidget) (hf : s.Fresh) : (removeDataSet s).Fresh := by
  intro i
  rw [renderer_removeDataSet, nextId_removeDataSet, lights_removeLastActor]
  exact ⟨fun a ha => (hf i).1 a ((actors_removeLastActor_sublist _).subset ha), (hf i).2⟩

theorem zoomToExtent_fresh (vtk : VtkLib) (s : SceneWidget) (hf : s.Fresh) :
    (zoomToExtent vtk s).Fresh := by
  obtain ⟨c, hc⟩ := zoomToExtent_eq vtk s
  rw [hc]
  intro i
  have : ({ s with camera := c } : SceneWidget).renderer i = s.renderer i := by
    cases i <;> rfl
  rw [this]
  exact hf i

theorem new_fresh : SceneWidget.new.Fresh := by
  intro i
  cases i <;> exact ⟨by decide, by decide⟩

theorem SceneOp.apply_fresh (vtk : VtkLib) (op : SceneOp) (s t : SceneWidget) (hf : s.Fresh)
    (e : op.apply vtk s = some t) : t.Fresh := by
  cases op with
  | addDataSet d => exact addDataSet_fresh vtk s t d hf e
  | removeDataSet =>
    rw [← Option.some.inj e]
    exact removeDataSet_fresh s hf
  | zoomToExtent =>
    rw [← Option.some.inj e]
    exact zoomToExtent_fresh vtk s hf

/-! ## Display modes (C7, C8) -/

/-- C7: `SceneWidget::initRenderer` with one of the four fixed display modes adds one new
actor, bound to the current normals.  With "wireframe" the actor has wireframe
representation and otherwise the default property, and no light is created.  With
"Flat shading", "Gouraud shading" and "Phong shading" the actor is green with ambient 0.3,
diffuse 0.3, specular 0.8, specular power 40 and flat, Gouraud and Phong interpolation,
and one fresh light is added: white ambient, diffuse and specular colour, position
(-100, 100, 25), focal point (0, 0, 0), intensity 0.8. -/
theorem initRenderer_fixed_modes (vtk : VtkLib) (s : SceneWidget) (i : RendererId) (d : DataSet)
    (hd : s.currentDataSet = some d) (hf : s.Fresh) :
    (∃ t a, initRenderer vtk s i "wireframe" = some t ∧
      (t.renderer i).actors = (s.renderer i).actors ++ [a] ∧ a ∉ (s.renderer i).actors ∧
      a.mapper = some ⟨s.nextId + 1, s.currentNormals⟩ ∧
      a.property.representation = .wireframe ∧
      a.property = { Property.new with representation := .wireframe } ∧
      (t.renderer i).lights = (s.renderer i).lights ∧ t.nextId = s.nextId + 2) ∧
    (∀ p ∈ [("Flat shading", Interpolation.flat), ("Gouraud shading", Interpolation.gouraud),
        ("Phong shading", Interpolation.phong)],
      ∃ t a l, initRenderer vtk s i p.1 = some t ∧
        (t.renderer i).actors = (s.renderer i).actors ++ [a] ∧ a ∉ (s.renderer i).actors ∧
        a.mapper = some ⟨s.nextId + 1, s.currentNormals⟩ ∧
        a.property.color = (0, 1, 0) ∧ a.property.ambient = 0.3 ∧ a.property.diffuse = 0.3 ∧
        a.property.specular = 0.8 ∧ a.property.specularPower = 40 ∧
        a.property.interpolation = p.2 ∧ a.property.representation = .surface ∧
        (t.renderer i).lights = (s.renderer i).lights ++ [l] ∧ l ∉ (s.renderer i).lights ∧
        l.ambientColor = (1, 1, 1) ∧ l.diffuseColor = (1, 1, 1) ∧ l.specularColor = (1, 1, 1) ∧
        l.position = (-100, 100, 25) ∧ l.focalPoint = (0, 0, 0) ∧ l.intensity = 0.8) := by
  have hfa : ∀ b ∈ (s.renderer i).actors, b.id ≠ s.nextId := fun b hb =>
    Nat.ne_of_lt ((hf i).1 b hb)
  have hfl : ∀ b ∈ (s.renderer i).lights, b.id ≠ s.nextId + 2 := fun b hb =>
    Nat.ne_of_lt (Nat.lt_add_right 2 ((hf i).2 b hb))
  constructor
  · obtain ⟨t, e, -, -, hn, -, -, hr⟩ := initRenderer_wire vtk s i d hd
    refine ⟨t, ⟨s.nextId, some ⟨s.nextId + 1, s.currentNormals⟩,
      { Property.new with representation := .wireframe }⟩, e, ?_, ?_, rfl, rfl, rfl, ?_, hn⟩
    · rw [hr]
      exact Renderer.actors_addActor_of_fresh _ _ hfa
    · intro hmem
      exact hfa _ hmem rfl
    · rw [hr]
      exact Renderer.lights_addActor _ _
  · intro p hp
    obtain ⟨t, e, -, -, -, -, -, hr⟩ := initRenderer_shaded vtk s i d hd p.1 p.2 hp
    refine ⟨t, ⟨s.nextId, some ⟨s.nextId + 1, s.currentNormals⟩,
      { configureActorProperties Property.new with interpolation := p.2 }⟩,
      configureLight (Light.new (s.nextId + 2)), e, ?_, ?_, rfl, rfl, rfl, rfl, rfl, ?_,
      rfl, rfl, ?_, ?_, rfl, rfl, rfl, rfl, rfl, rfl⟩
    · rw [hr]
      exact Renderer.actors_addActor_of_fresh _ _ hfa
    · intro hmem
      exact hfa _ hmem rfl
    · show (40.0 : ℚ) = 40
      norm_num
    · rw [hr, Renderer.lights_addActor]
      rfl
    · intro hmem
      exact hfl _ hmem rfl

/-- The wireframe part of C7 on the scene that holds the triangle. -/
theorem initRenderer_fixed_modes_witness :
    loadedScene.currentDataSet = some triangle ∧ loadedScene.Fresh ∧
    ∃ t a, initRenderer sampleVtk loadedScene .topLeft "wireframe" = some t ∧
      (t.renderer .topLeft).actors = (loadedScene.renderer .topLeft).actors ++ [a] ∧
      a ∉ (loadedScene.renderer .topLeft).actors ∧
      a.mapper = some ⟨loadedScene.nextId + 1, loadedScene.currentNormals⟩ ∧
      a.property.representation = .wireframe ∧
      a.property = { Property.new with representation := .wireframe } ∧
      (t.renderer .topLeft).lights = (loadedScene.renderer .topLeft).lights ∧
      t.nextId = loadedScene.nextId + 2 :=
  ⟨loadedScene_currentDataSet, loadedScene_fresh,
    (initRenderer_fixed_modes sampleVtk loadedScene .topLeft triangle
      loadedScene_currentDataSet loadedScene_fresh).1⟩

/-- C8, as the code has it: for a display mode that is none of the four supported ones,
`SceneWidget::initRenderer` does not fail and writes nothing to `std::cerr`; it adds one
new actor with the default property and no light. -/
theorem initRenderer_unsupported_mode (vtk : VtkLib) (s : SceneWidget) (i : RendererId) (d : DataSet)
    (mode : String) (hd : s.currentDataSet = some d) (hf : s.Fresh)
    (hm : mode ∉ ["wireframe", "Flat shading", "Gouraud shading", "Phong shading"]) :
    ∃ t a, initRenderer vtk s i mode = some t ∧ t.cerr = s.cerr ∧
      (t.renderer i).actors = (s.renderer i).actors ++ [a] ∧ a ∉ (s.renderer i).actors ∧
      a.property = Property.new ∧
      (t.renderer i).lights = (s.renderer i).lights ∧ t.nextId = s.nextId + 2 := by
  have hfa : ∀ b ∈ (s.renderer i).actors, b.id ≠ s.nextId := fun b hb =>
    Nat.ne_of_lt ((hf i).1 b hb)
  simp only [List.mem_cons, List.mem_singleton, List.not_mem_nil, or_false, not_or] at hm
  obtain ⟨t, e, -, -, hn, hc, -, hr⟩ :=
    initRenderer_other vtk s i d hd mode hm.1 hm.2.1 hm.2.2.1 hm.2.2.2
  refine ⟨t, ⟨s.nextId, some ⟨s.nextId + 1, s.currentNormals⟩, Property.new⟩, e, hc, ?_, ?_,
    rfl, ?_, hn⟩
  · rw [hr]
    exact Renderer.actors_addActor_of_fresh _ _ hfa
  · intro hmem
    exact hfa _ hmem rfl
  · rw [hr]
    exact Renderer.lights_addActor _ _

/-- The default display mode on the scene that holds the triangle. -/
theorem initRenderer_unsupported_mode_witness :
    loadedScene.currentDataSet = some triangle ∧ loadedScene.Fresh ∧
    "" ∉ ["wireframe", "Flat shading", "Gouraud shading", "Phong shading"] ∧
    ∃ t a, initRenderer sampleVtk loadedScene .topLeft "" = some t ∧ t.cerr = loadedScene.cerr ∧
      (t.renderer .topLeft).actors = (loadedScene.renderer .topLeft).actors ++ [a] ∧
      a ∉ (loadedScene.renderer .topLeft).actors ∧ a.property = Property.new ∧
      (t.renderer .topLeft).lights = (loadedScene.renderer .topLeft).lights ∧
      t.nextId = loadedScene.nextId + 2 :=
  ⟨loadedScene_currentDataSet, loadedScene_fresh, by decide,
    initRenderer_unsupported_mode sampleVtk loadedScene .topLeft triangle ""
      loadedScene_currentDataSet loadedScene_fresh (by decide)⟩

/-- C8 as stated fails: with the default display mode, which is none of the four, on the
scene that holds the triangle, `SceneWidget::initRenderer` returns and has written no line
to `std::cerr`, so the unsupported mode is not reported. -/
theorem initRenderer_default_mode_silent :
    "" ∉ ["wireframe", "Flat shading", "Gouraud shading", "Phong shading"] ∧
    loadedScene.cerr = [] ∧
    (initRenderer sampleVtk loadedScene .topLeft "").map (fun t => t.cerr) = some [] := by
  decide

/-! ## Loading (C2, C3) -/

/-- C2, as the code has it: `SceneWidget::addDataSet` has no test for an empty point set
and reports no error.  Given a dataset with zero points it returns normally, writes nothing
to `std::cerr`, makes that dataset the current dataset and the normals computed from it the
current normals, and adds to every viewport one new actor on those normals, on top of the
actors the viewport holds; every shaded viewport also receives one new light. -/
theorem addDataSet_empty_point_set (vtk : VtkLib) (s : SceneWidget) (d : DataSet)
    (hz : d.numberOfPoints = 0) (hf : s.Fresh) :
    ∃ t, addDataSet vtk s d = some t ∧ t.cerr = s.cerr ∧ t.currentDataSet = some d ∧
      t.currentDataSet.map DataSet.numberOfPoints = some 0 ∧
      t.currentNormals = some (vtk.polyDataNormals
        (match PolyData.safeDownCast d with
          | some p => p
          | none => vtk.geometryFilter d)) ∧
      (∀ i, ∃ a, (t.renderer i).actors = (s.renderer i).actors ++ [a] ∧
        a ∉ (s.renderer i).actors ∧ a.mapper.bind Mapper.input = t.currentNormals) ∧
      (t.renderer .topLeft).lights = (s.renderer .topLeft).lights ∧
      (∀ i, i ≠ RendererId.topLeft →
        ∃ l, (t.renderer i).lights = (s.renderer i).lights ++ [l] ∧
          l ∉ (s.renderer i).lights) := by
  obtain ⟨t, e, hd, hn, -, hc, -⟩ := addDataSet_spec vtk s d
  have hpts : t.currentDataSet.map DataSet.numberOfPoints = some 0 := by
    rw [hd, Option.map_some', hz]
  obtain ⟨t1, e1, -, ha⟩ := addDataSet_actors vtk s d (fun i => (hf i).1)
  obtain ⟨t2, e2, -, hl0, hl⟩ := addDataSet_lights vtk s d
  have h1 : t1 = t := Option.some.inj (e1.symm.trans e)
  have h2 : t2 = t := Option.some.inj (e2.symm.trans e)
  rw [h1] at ha
  rw [h2] at hl0 hl
  refine ⟨t, e, hc, hd, hpts, hn, ?_, hl0, ?_⟩
  · intro i
    obtain ⟨a, hact, hle, -, hmap⟩ := ha i
    refine ⟨a, hact, ?_, ?_⟩
    · intro hmem
      exact Nat.lt_irrefl _ (Nat.lt_of_lt_of_le ((hf i).1 a hmem) hle)
    · rw [hmap]
      rfl
  · intro i hi
    obtain ⟨l, hlig, hle, -, -⟩ := hl i hi
    exact ⟨l, hlig, fun hmem => Nat.lt_irrefl _ (Nat.lt_of_lt_of_le ((hf i).2 l hmem) hle)⟩

/-- The empty dataset loaded over the triangle. -/
theorem addDataSet_empty_point_set_witness :
    emptyDataSet.numberOfPoints = 0 ∧ loadedScene.Fresh ∧
    ∃ t, addDataSet sampleVtk loadedScene emptyDataSet = some t ∧ t.cerr = loadedScene.cerr ∧
      t.currentDataSet = some emptyDataSet ∧
      t.currentDataSet.map DataSet.numberOfPoints = some 0 ∧
      t.currentNormals = some (sampleVtk.polyDataNormals
        (match PolyData.safeDownCast emptyDataSet with
          | some p => p
          | none => sampleVtk.geometryFilter emptyDataSet)) ∧
      (∀ i, ∃ a, (t.renderer i).actors = (loadedScene.renderer i).actors ++ [a] ∧
        a ∉ (loadedScene.renderer i).actors ∧ a.mapper.bind Mapper.input = t.currentNormals) ∧
      (t.renderer .topLeft).lights = (loadedScene.renderer .topLeft).lights ∧
      (∀ i, i ≠ RendererId.topLeft →
        ∃ l, (t.renderer i).lights = (loadedScene.renderer i).lights ++ [l] ∧
          l ∉ (loadedScene.renderer i).lights) :=
  ⟨by decide, loadedScene_fresh,
    addDataSet_empty_point_set sampleVtk loadedScene emptyDataSet (by decide) loadedScene_fresh⟩

/-- C2 as stated fails: on the scene that holds the triangle, `SceneWidget::addDataSet` with
a dataset of zero points returns without an error line, and afterwards the current dataset
is the empty one and the top-left viewport holds two actors instead of one. -/
theorem addDataSet_empty_replaces_geometry :
    emptyDataSet.numberOfPoints = 0 ∧
    loadedScene.currentDataSet = some triangle ∧
    loadedScene.topLeftRenderer.actors.length = 1 ∧
    (addDataSet sampleVtk loadedScene emptyDataSet).map
      (fun t => (t.currentDataSet, t.cerr, t.topLeftRenderer.actors.length))
      = some (some emptyDataSet, [], 2) := by
  decide

theorem runOps_lights (vtk : VtkLib) (ops : List SceneOp) (s : SceneWidget) (hf : s.Fresh) :
    ∃ t, runOps vtk s ops = some t ∧ t.Fresh ∧
      (t.renderer .topLeft).lights = (s.renderer .topLeft).lights ∧
      ∀ i, i ≠ RendererId.topLeft →
        (t.renderer i).lights.length = (s.renderer i).lights.length + countLoads ops := by
  induction ops generalizing s with
  | nil => exact ⟨s, rfl, hf, rfl, fun _ _ => rfl⟩
  | cons op ops ih =>
    cases op with
    | addDataSet d =>
      obtain ⟨u, e, -, hl0, hl⟩ := addDataSet_lights vtk s d
      obtain ⟨t, et, ht, h0, hlen⟩ := ih u (addDataSet_fresh vtk s u d hf e)
      refine ⟨t, ?_, ht, h0.trans hl0, ?_⟩
      · simp only [runOps, SceneOp.apply, e, Option.some_bind, et]
      · intro i hi
        obtain ⟨l, hlig, -⟩ := hl i hi
        rw [hlen i hi, hlig, List.length_append, List.length_singleton, countLoads]
        omega
    | removeDataSet =>
      obtain ⟨t, et, ht, h0, hlen⟩ := ih (removeDataSet s) (removeDataSet_fresh s hf)
      refine ⟨t, ?_, ht, ?_, ?_⟩
      · simp only [runOps, SceneOp.apply, Option.some_bind, et]
      · rw [h0, renderer_removeDataSet, lights_removeLastActor]
      · intro i hi
        rw [hlen i hi, renderer_removeDataSet, lights_removeLastActor, countLoads]
    | zoomToExtent =>
      obtain ⟨t, et, ht, h0, hlen⟩ := ih (zoomToExtent vtk s) (zoomToExtent_fresh vtk s hf)
      obtain ⟨c, hc⟩ := zoomToExtent_eq vtk s
      have hren : ∀ i, (zoomToExtent vtk s).renderer i = s.renderer i := by
        intro i
        rw [hc]
        cases i <;> rfl
      refine ⟨t, ?_, ht, ?_, ?_⟩
      · simp only [runOps, SceneOp.apply, Option.some_bind, et]
      · rw [h0, hren]
      · intro i hi
        rw [hlen i hi, hren, countLoads]

theorem runOps_fresh (vtk : VtkLib) (ops : List SceneOp) :
    ∃ s, runOps vtk SceneWidget.new ops = some s ∧ s.Fresh := by
  obtain ⟨s, e, hf, -⟩ := runOps_lights vtk ops SceneWidget.new new_fresh
  exact ⟨s, e, hf⟩

/-- C3, as the code has it: a load discards no light.  After any sequence of loads, clears
and zooms on the fresh scene, a further load leaves the wireframe viewport without a light
and appends to each of the three shaded viewports exactly one light, the one created by
that rebuild (allocated during the load) and held by none of the four viewports before,
after the lights the viewport holds already;
when no clear is among the operations, a shaded viewport then holds one light for every
load performed so far. -/
theorem lights_after_load (vtk : VtkLib) (ops : List SceneOp) (d : DataSet) :
    ∃ s t, runOps vtk SceneWidget.new ops = some s ∧ addDataSet vtk s d = some t ∧
      (t.renderer .topLeft).lights = [] ∧
      ∀ i, i ≠ RendererId.topLeft →
        ∃ l, (t.renderer i).lights = (s.renderer i).lights ++ [l] ∧
          (∀ j, l ∉ (s.renderer j).lights) ∧ l = configureLight (Light.new l.id) ∧
          s.nextId ≤ l.id ∧ l.id < t.nextId ∧
          ((∀ op ∈ ops, op.isClear = false) →
            (t.renderer i).lights.length = countLoads ops + 1) := by
  obtain ⟨s, es, hf, h0, hlen⟩ := runOps_lights vtk ops SceneWidget.new new_fresh
  obtain ⟨t, et, -, hl0, hl⟩ := addDataSet_lights vtk s d
  refine ⟨s, t, es, et, ?_, ?_⟩
  · rw [hl0, h0]
    rfl
  · intro i hi
    obtain ⟨l, hlig, hle, hlt, hcfg⟩ := hl i hi
    refine ⟨l, hlig, ?_, hcfg, hle, hlt, ?_⟩
    · intro j hmem
      exact Nat.lt_irrefl _ (Nat.lt_of_lt_of_le ((hf j).2 l hmem) hle)
    · intro _
      rw [hlig, List.length_append, List.length_singleton, hlen i hi]
      have : (SceneWidget.new.renderer i).lights.length = 0 := by
        cases i <;> rfl
      omega

/-- C3 as stated fails: after two loads of the triangle, with or without a clear in
between, the top-right (flat shading) viewport holds two lights, the one of the first
rebuild and the one of the second. -/
theorem lights_accumulate :
    (runOps sampleVtk SceneWidget.new [.addDataSet triangle, .addDataSet triangle]).map
      (fun t => t.topRightRenderer.lights.map Light.id) = some [4, 15] ∧
    (runOps sampleVtk SceneWidget.new
      [.addDataSet triangle, .removeDataSet, .addDataSet triangle]).map
      (fun t => t.topRightRenderer.lights.map Light.id) = some [4, 15] := by
  decide

/-! ## Opening a file -/

theorem selectReader_eq (ext : String) :
    selectReader ext =
      if ext = "vtk" then some .dataSetReader
      else if ext = "obj" then some .objReader
      else if ext = "ply" then some .plyReader
      else if ext = "stl" then some .stlReader
      else none := by
  by_cases h1 : ext = "vtk"
  · subst h1
    decide
  · by_cases h2 : ext = "obj"
    · subst h2
      decide
    · by_cases h3 : ext = "ply"
      · subst h3
        decide
      · by_cases h4 : ext = "stl"
        · subst h4
          decide
        · have e1 : (ext == "vtk") = false := beq_eq_false_iff_ne.mpr h1
          have e2 : (ext == "obj") = false := beq_eq_false_iff_ne.mpr h2
          have e3 : (ext == "ply") = false := beq_eq_false_iff_ne.mpr h3
          have e4 : (ext == "stl") = false := beq_eq_false_iff_ne.mpr h4
          simp [selectReader, readerMapping, List.lookup, h1, h2, h3, h4, e1, e2, e3, e4]

theorem selectReader_eq_none_iff (ext : String) :
    selectReader ext = none ↔ ext ∉ ["vtk", "obj", "ply", "stl"] := by
  rw [selectReader_eq]
  by_cases h1 : ext = "vtk"
  · simp [h1]
  · by_cases h2 : ext = "obj"
    · simp [h2]
    · by_cases h3 : ext = "ply"
      · simp [h3]
      · by_cases h4 : ext = "stl"
        · simp [h4]
        · simp [h1, h2, h3, h4]

theorem loadDataSet_eq_none_iff (files : Files) (fileName : String) :
    (loadDataSet files fileName).2 = none ↔
      (extensionOf fileName ∉ ["vtk", "obj", "ply", "stl"] ∨
        ∃ k, selectReader (extensionOf fileName) = some k ∧
          readDataSet files k fileName = none) := by
  unfold loadDataSet
  cases h : selectReader (extensionOf fileName) with
  | none =>
    simp only [true_iff]
    exact Or.inl ((selectReader_eq_none_iff _).mp h)
  | some k =>
    have hin : ¬ extensionOf fileName ∉ ["vtk", "obj", "ply", "stl"] := by
      intro hn
      rw [(selectReader_eq_none_iff _).mpr hn] at h
      exact Option.noConfusion h
    constructor
    · intro hr
      exact Or.inr ⟨k, rfl, hr⟩
    · intro hr
      rcases hr with hr | ⟨k1, hk, hr⟩
      · exact absurd hr hin
      · cases hk
        exact hr

theorem openFile_of_none (files : Files) (vtk : VtkLib) (s : SceneWidget) (fileName : String)
    (h : (loadDataSet files fileName).2 = none) :
    openFile files vtk s fileName = some ⟨removeDataSet s, (loadDataSet files fileName).1⟩ := by
  unfold openFile
  simp only [h]

theorem openFile_of_some (files : Files) (vtk : VtkLib) (s : SceneWidget) (fileName : String)
    (d : DataSet) (h : (loadDataSet files fileName).2 = some d) :
    openFile files vtk s fileName =
      (addDataSet vtk (removeDataSet s) d).map
        (fun t => ⟨t, (loadDataSet files fileName).1⟩) := by
  unfold openFile
  simp only [h]

theorem openFile_total (files : Files) (vtk : VtkLib) (s : SceneWidget) (fileName : String) :
    ∃ o, openFile files vtk s fileName = some o ∧
      o.readerCalls = (loadDataSet files fileName).1 := by
  cases h : (loadDataSet files fileName).2 with
  | none => exact ⟨_, openFile_of_none files vtk s fileName h, rfl⟩
  | some d =>
    obtain ⟨t, e, -⟩ := addDataSet_spec vtk (removeDataSet s) d
    refine ⟨⟨t, (loadDataSet files fileName).1⟩, ?_, rfl⟩
    rw [openFile_of_some files vtk s fileName d h, e]
    rfl

theorem openFile_actors (files : Files) (vtk : VtkLib) (s : SceneWidget) (fileName : String)
    (h : ∀ i, (s.renderer i).actors.length ≤ 1) :
    ∃ o, openFile files vtk s fileName = some o ∧
      ((loadDataSet files fileName).2 = none → ∀ i, (o.scene.renderer i).actors = []) ∧
      ((loadDataSet files fileName).2 ≠ none → ∀ i, (o.scene.renderer i).actors.length = 1) := by
  have hnil : ∀ i, ((removeDataSet s).renderer i).actors = [] := by
    intro i
    rw [renderer_removeDataSet]
    exact actors_removeLastActor_of_le_one _ (h i)
  cases hl : (loadDataSet files fileName).2 with
  | none =>
    refine ⟨_, openFile_of_none files vtk s fileName hl, fun _ => hnil, ?_⟩
    intro hne
    exact absurd rfl hne
  | some d =>
    obtain ⟨t, e, ht⟩ := addDataSet_actors_of_nil vtk (removeDataSet s) d hnil
    refine ⟨⟨t, (loadDataSet files fileName).1⟩, ?_, ?_, fun _ => ht⟩
    · rw [openFile_of_some files vtk s fileName d hl, e]
      rfl
    · intro hn
      exact Option.noConfusion hn

theorem runOpenFiles_actors (vtk : VtkLib) (calls : List (Files × String)) (s : SceneWidget)
    (h : ∀ i, (s.renderer i).actors.length ≤ 1) :
    ∃ t, runOpenFiles vtk s calls = some t ∧ ∀ i, (t.renderer i).actors.length ≤ 1 := by
  induction calls generalizing s with
  | nil => exact ⟨s, rfl, h⟩
  | cons c cs ih =>
    obtain ⟨o, e, hnone, hsome⟩ := openFile_actors c.1 vtk s c.2 h
    have ho : ∀ i, (o.scene.renderer i).actors.length ≤ 1 := by
      intro i
      by_cases hl : (loadDataSet c.1 c.2).2 = none
      · rw [hnone hl i]
        exact Nat.zero_le 1
      · exact Nat.le_of_eq (hsome hl i)
    obtain ⟨t, et, ht⟩ := ih o.scene ho
    refine ⟨t, ?_, ht⟩
    simp only [runOpenFiles, e, Option.some_bind, et]

/-! ## Clearing (C4, C10, C1) -/

theorem runOps_nodup (vtk : VtkLib) (ops : List SceneOp) (s : SceneWidget) (hf : s.Fresh)
    (hn : ∀ i, ((s.renderer i).actors.map Actor.id).Nodup) :
    ∃ t, runOps vtk s ops = some t ∧ ∀ i, ((t.renderer i).actors.map Actor.id).Nodup := by
  induction ops generalizing s with
  | nil => exact ⟨s, rfl, hn⟩
  | cons op ops ih =>
    cases op with
    | addDataSet d =>
      obtain ⟨u, e, -, ha⟩ := addDataSet_actors vtk s d (fun i => (hf i).1)
      have hu : ∀ i, ((u.renderer i).actors.map Actor.id).Nodup := by
        intro i
        obtain ⟨a, hact, hle, -, -⟩ := ha i
        rw [hact, List.map_append, List.nodup_append]
        refine ⟨hn i, List.nodup_singleton _, ?_⟩
        intro x hx hxa
        obtain ⟨b, hb, hbx⟩ := List.mem_map.mp hx
        have hxe : x = a.id := by simpa using hxa
        have hlt := (hf i).1 b hb
        omega
      obtain ⟨t, et, ht⟩ := ih u (addDataSet_fresh vtk s u d hf e) hu
      refine ⟨t, ?_, ht⟩
      simp only [runOps, SceneOp.apply, e, Option.some_bind, et]
    | removeDataSet =>
      have hu : ∀ i, (((removeDataSet s).renderer i).actors.map Actor.id).Nodup := by
        intro i
        rw [renderer_removeDataSet]
        exact List.Nodup.sublist ((actors_removeLastActor_sublist _).map Actor.id) (hn i)
      obtain ⟨t, et, ht⟩ := ih (removeDataSet s) (removeDataSet_fresh s hf) hu
      refine ⟨t, ?_, ht⟩
      simp only [runOps, SceneOp.apply, Option.some_bind, et]
    | zoomToExtent =>
      obtain ⟨c, hc⟩ := zoomToExtent_eq vtk s
      have hren : ∀ i, (zoomToExtent vtk s).renderer i = s.renderer i := by
        intro i
        rw [hc]
        cases i <;> rfl
      have hu : ∀ i, (((zoomToExtent vtk s).renderer i).actors.map Actor.id).Nodup := by
        intro i
        rw [hren]
        exact hn i
      obtain ⟨t, et, ht⟩ := ih (zoomToExtent vtk s) (zoomToExtent_fresh vtk s hf) hu
      refine ⟨t, ?_, ht⟩
      simp only [runOps, SceneOp.apply, Option.some_bind, et]

/-- C4, as the code has it: `removeDataSet` removes from each viewport one actor, its last
one, and no other.  In every scene state a viewport that holds actors loses exactly one of
them and keeps the others in their order, and the one it loses is the last whenever the
actors of the viewport are distinct objects, as they are in every state the public
operations reach from the fresh scene.  Hence calling it twice yields the same scene as
calling it once exactly when every viewport holds at most one actor, and exactly then no
viewport holds an actor after one call. -/
theorem removeDataSet_idempotent_iff (vtk : VtkLib) (ops : List SceneOp) (s : SceneWidget) :
    (removeDataSet (removeDataSet s) = removeDataSet s ↔
      ∀ i, (s.renderer i).actors.length ≤ 1) ∧
    ((∀ i, ((removeDataSet s).renderer i).actors = []) ↔
      ∀ i, (s.renderer i).actors.length ≤ 1) ∧
    (∀ i, ((removeDataSet s).renderer i).actors.length = (s.renderer i).actors.length - 1 ∧
      ((removeDataSet s).renderer i).actors.Sublist (s.renderer i).actors ∧
      (((s.renderer i).actors.map Actor.id).Nodup →
        ((removeDataSet s).renderer i).actors = (s.renderer i).actors.dropLast)) ∧
    (∃ t, runOps vtk SceneWidget.new ops = some t ∧
      ∀ i, ((removeDataSet t).renderer i).actors = (t.renderer i).actors.dropLast) := by
  have key : (∀ i, ((removeDataSet s).renderer i).actors = []) ↔
      ∀ i, (s.renderer i).actors.length ≤ 1 := by
    constructor
    · intro h i
      have h1 := h i
      rw [renderer_removeDataSet] at h1
      have h2 := length_actors_removeLastActor (s.renderer i)
      rw [h1] at h2
      simp only [List.length_nil] at h2
      omega
    · intro h i
      rw [renderer_removeDataSet]
      exact actors_removeLastActor_of_le_one _ (h i)
  refine ⟨?_, key, ?_, ?_⟩
  · rw [← key]
    constructor
    · intro h i
      have h1 := congrArg (fun t => t.renderer i) h
      simp only [renderer_removeDataSet (removeDataSet s)] at h1
      exact (removeLastActor_eq_self_iff _).mp h1
    · intro h
      apply SceneWidget.ext_renderers
      · rw [currentDataSet_removeDataSet]
      · rw [currentNormals_removeDataSet]
      · intro i
        rw [renderer_removeDataSet (removeDataSet s)]
        exact actors_removeLastActor_of_nil _ (h i)
      · rw [camera_removeDataSet]
      · rw [nextId_removeDataSet]
      · rw [cerr_removeDataSet]
  · intro i
    rw [renderer_removeDataSet]
    exact ⟨length_actors_removeLastActor _, actors_removeLastActor_sublist _,
      actors_removeLastActor_of_nodup _⟩
  · have h0 : ∀ i, ((SceneWidget.new.renderer i).actors.map Actor.id).Nodup := by
      intro i
      cases i <;> exact List.nodup_nil
    obtain ⟨t, et, ht⟩ := runOps_nodup vtk ops SceneWidget.new new_fresh h0
    refine ⟨t, et, ?_⟩
    intro i
    rw [renderer_removeDataSet]
    exact actors_removeLastActor_of_nodup _ (ht i)

/-- C4 as stated fails: after two loads of the triangle into the fresh scene, a state the
public operations of `SceneWidget` reach, one call of `removeDataSet` leaves one actor in
the top-left viewport and a second call removes it. -/
theorem removeDataSet_not_idempotent :
    (runOps sampleVtk SceneWidget.new [.addDataSet triangle, .addDataSet triangle]).map
      (fun s => ((removeDataSet s).topLeftRenderer.actors.length,
        (removeDataSet (removeDataSet s)).topLeftRenderer.actors.length)) = some (1, 0) := by
  decide

/-- C10: starting from the freshly constructed scene, after every sequence of
`MainWindow::openFile` calls each of the four viewports holds at most one actor, so that
`removeDataSet`, which removes the last actor of each renderer only, empties every
viewport; and a further `openFile` returns with exactly one actor in every viewport when
its load succeeds and with at most one otherwise. -/
theorem openFile_keeps_at_most_one_actor (vtk : VtkLib) (calls : List (Files × String)) :
    ∃ s, runOpenFiles vtk SceneWidget.new calls = some s ∧
      (∀ i, (s.renderer i).actors.length ≤ 1) ∧
      (∀ i, ((removeDataSet s).renderer i).actors = []) ∧
      ∀ (files : Files) (fileName : String),
        ∃ o, openFile files vtk s fileName = some o ∧
          (∀ i, (o.scene.renderer i).actors.length ≤ 1) ∧
          ((loadDataSet files fileName).2 ≠ none →
            ∀ i, (o.scene.renderer i).actors.length = 1) := by
  have h0 : ∀ i, (SceneWidget.new.renderer i).actors.length ≤ 1 := by
    intro i
    cases i <;> exact Nat.zero_le 1
  obtain ⟨s, e, hs⟩ := runOpenFiles_actors vtk calls SceneWidget.new h0
  refine ⟨s, e, hs, ?_, ?_⟩
  · intro i
    rw [renderer_removeDataSet]
    exact actors_removeLastActor_of_le_one _ (hs i)
  · intro files fileName
    obtain ⟨o, eo, hnone, hsome⟩ := openFile_actors files vtk s fileName hs
    refine ⟨o, eo, ?_, hsome⟩
    intro i
    by_cases hl : (loadDataSet files fileName).2 = none
    · rw [hnone hl i]
      exact Nat.zero_le 1
    · exact Nat.le_of_eq (hsome hl i)

/-- C1, as the code has it: `MainWindow::openFile` clears before it looks at the file.
When the load fails (the extension is none of vtk, obj, ply, stl, or the reader yields no
dataset) the call returns with exactly the scene `removeDataSet` produces: the current
dataset and the current normals are those before the call, and each viewport has lost its
last actor and kept the others, so that a viewport holds the same actors as before only if
it held none. -/
theorem openFile_failed_load (files : Files) (vtk : VtkLib) (s : SceneWidget) (fileName : String)
    (h : extensionOf fileName ∉ ["vtk", "obj", "ply", "stl"] ∨
      ∃ k, selectReader (extensionOf fileName) = some k ∧
        readDataSet files k fileName = none) :
    ∃ o, openFile files vtk s fileName = some o ∧ o.scene = removeDataSet s ∧
      o.scene.currentDataSet = s.currentDataSet ∧
      o.scene.currentNormals = s.currentNormals ∧
      ∀ i, (o.scene.renderer i).actors.length = (s.renderer i).actors.length - 1 ∧
        (o.scene.renderer i).actors.Sublist (s.renderer i).actors ∧
        (((s.renderer i).actors.map Actor.id).Nodup →
          (o.scene.renderer i).actors = (s.renderer i).actors.dropLast) ∧
        ((o.scene.renderer i).actors = (s.renderer i).actors ↔ (s.renderer i).actors = []) := by
  have hl := (loadDataSet_eq_none_iff files fileName).mpr h
  refine ⟨_, openFile_of_none files vtk s fileName hl, rfl, currentDataSet_removeDataSet s,
    currentNormals_removeDataSet s, ?_⟩
  intro i
  show (((removeDataSet s).renderer i).actors.length = _ ∧ _)
  rw [renderer_removeDataSet]
  refine ⟨length_actors_removeLastActor _, actors_removeLastActor_sublist _,
    actors_removeLastActor_of_nodup _, ?_⟩
  constructor
  · intro heq
    have hlen := length_actors_removeLastActor (s.renderer i)
    rw [heq] at hlen
    apply List.eq_nil_of_length_eq_zero
    omega
  · intro hnil
    rw [actors_removeLastActor_of_nil _ hnil]

/-- A file with an unsupported extension opened over the triangle. -/
theorem openFile_failed_load_witness :
    (extensionOf "notes.txt" ∉ ["vtk", "obj", "ply", "stl"] ∨
      ∃ k, selectReader (extensionOf "notes.txt") = some k ∧
        readDataSet sampleFiles k "notes.txt" = none) ∧
    ∃ o, openFile sampleFiles sampleVtk loadedScene "notes.txt" = some o ∧
      o.scene = removeDataSet loadedScene ∧
      o.scene.currentDataSet = loadedScene.currentDataSet ∧
      o.scene.currentNormals = loadedScene.currentNormals ∧
      ∀ i, (o.scene.renderer i).actors.length = (loadedScene.renderer i).actors.length - 1 ∧
        (o.scene.renderer i).actors.Sublist (loadedScene.renderer i).actors ∧
        (((loadedScene.renderer i).actors.map Actor.id).Nodup →
          (o.scene.renderer i).actors = (loadedScene.renderer i).actors.dropLast) ∧
        ((o.scene.renderer i).actors = (loadedScene.renderer i).actors ↔
          (loadedScene.renderer i).actors = []) :=
  ⟨Or.inl (by decide),
    openFile_failed_load sampleFiles sampleVtk loadedScene "notes.txt" (Or.inl (by decide))⟩

/-- C1 as stated fails: on the scene that holds the triangle, opening `notes.txt`, whose
extension is not supported, and opening `mesh.vtk` from a disk on which the reader yields
no dataset, both leave the top-left viewport without the actor it held. -/
theorem failed_openFile_removes_actor :
    loadedScene.topLeftRenderer.actors.length = 1 ∧
    extensionOf "notes.txt" ∉ ["vtk", "obj", "ply", "stl"] ∧
    (openFile sampleFiles sampleVtk loadedScene "notes.txt").map
      (fun o => o.scene.topLeftRenderer.actors.length) = some 0 ∧
    selectReader (extensionOf "mesh.vtk") = some .dataSetReader ∧
    readDataSet noFiles .dataSetReader "mesh.vtk" = none ∧
    (openFile noFiles sampleVtk loadedScene "mesh.vtk").map
      (fun o => o.scene.topLeftRenderer.actors.length) = some 0 := by
  decide

/-! ## Reader selection (C5) -/

theorem qToLower_eq_of_map_toLower (s e : String) (hk : Char.ofNat 0x212A ∉ e.data)
    (h : s.data.map Char.toLower = e.data) : qToLower s = e := by
  have hmap : s.data.map qCharToLower = s.data.map Char.toLower := by
    apply List.map_congr_left
    intro c hc
    unfold qCharToLower
    by_cases hc0 : c = Char.ofNat 0x212A
    · exfalso
      apply hk
      rw [← h]
      have hfix : (Char.ofNat 0x212A).toLower = Char.ofNat 0x212A := by decide
      rw [← hfix, ← hc0]
      exact List.mem_map_of_mem Char.toLower hc
    · rw [if_neg hc0]
  unfold qToLower
  rw [hmap, h]

theorem openFile_readerCalls (files : Files) (vtk : VtkLib) (s : SceneWidget)
    (fileName : String) :
    ∃ o, openFile files vtk s fileName = some o ∧
      o.readerCalls =
        (if qToLower (suffix fileName) = "vtk" then [⟨.dataSetReader, cStr fileName⟩]
        else if qToLower (suffix fileName) = "obj" then [⟨.objReader, cStr fileName⟩]
        else if qToLower (suffix fileName) = "ply" then [⟨.plyReader, cStr fileName⟩]
        else if qToLower (suffix fileName) = "stl" then [⟨.stlReader, cStr fileName⟩]
        else []) ∧
      (o.readerCalls ≠ [] ↔ qToLower (suffix fileName) ∈ ["vtk", "obj", "ply", "stl"]) ∧
      (qToLower (suffix fileName) ∉ ["vtk", "obj", "ply", "stl"] →
        o.scene = removeDataSet s) := by
  obtain ⟨o, e, hcalls⟩ := openFile_total files vtk s fileName
  have hsel := selectReader_eq (qToLower (suffix fileName))
  have hload : (loadDataSet files fileName).1 =
      (if qToLower (suffix fileName) = "vtk" then [⟨.dataSetReader, cStr fileName⟩]
        else if qToLower (suffix fileName) = "obj" then [⟨.objReader, cStr fileName⟩]
        else if qToLower (suffix fileName) = "ply" then [⟨.plyReader, cStr fileName⟩]
        else if qToLower (suffix fileName) = "stl" then [⟨.stlReader, cStr fileName⟩]
        else []) := by
    unfold loadDataSet extensionOf
    rw [hsel]
    by_cases h1 : qToLower (suffix fileName) = "vtk"
    · simp [h1]
    · by_cases h2 : qToLower (suffix fileName) = "obj"
      · simp [h2]
      · by_cases h3 : qToLower (suffix fileName) = "ply"
        · simp [h3]
        · by_cases h4 : qToLower (suffix fileName) = "stl"
          · simp [h4]
          · simp [h1, h2, h3, h4]
  refine ⟨o, e, hcalls.trans hload, ?_, ?_⟩
  · rw [hcalls, hload]
    by_cases h1 : qToLower (suffix fileName) = "vtk"
    · simp [h1]
    · by_cases h2 : qToLower (suffix fileName) = "obj"
      · simp [h2]
      · by_cases h3 : qToLower (suffix fileName) = "ply"
        · simp [h3]
        · by_cases h4 : qToLower (suffix fileName) = "stl"
          · simp [h4]
          · simp [h1, h2, h3, h4]
  · intro hn
    have hnone : (loadDataSet files fileName).2 = none :=
      (loadDataSet_eq_none_iff files fileName).mpr (Or.inl hn)
    have e2 := openFile_of_none files vtk s fileName hnone
    rw [e] at e2
    rw [Option.some.inj e2]

/-- C5: `MainWindow::openFile` returns for every file name, and the readers it ran are
decided by the lower-cased suffix alone: the dataset reader for `vtk`, the OBJ, PLY and STL
reader for `obj`, `ply` and `stl`, each on the given file and nothing else, and no reader at
all for any other suffix, in which case the call ends after the clearing.  The comparison
ignores case: a suffix whose letters, lower-cased one by one, spell `vtk`, `obj`, `ply` or
`stl` selects that reader, so `dir.d/MESH.Stl` is read by the STL reader and `model.VTK` by
the dataset reader, while `mesh.stlx` and `notes.TXT` are read by none. -/
theorem openFile_reader_selection (files : Files) (vtk : VtkLib) (s : SceneWidget)
    (fileName : String) :
    ∃ o, openFile files vtk s fileName = some o ∧
      o.readerCalls =
        (if qToLower (suffix fileName) = "vtk" then [⟨.dataSetReader, cStr fileName⟩]
        else if qToLower (suffix fileName) = "obj" then [⟨.objReader, cStr fileName⟩]
        else if qToLower (suffix fileName) = "ply" then [⟨.plyReader, cStr fileName⟩]
        else if qToLower (suffix fileName) = "stl" then [⟨.stlReader, cStr fileName⟩]
        else []) ∧
      (o.readerCalls ≠ [] ↔ qToLower (suffix fileName) ∈ ["vtk", "obj", "ply", "stl"]) ∧
      (qToLower (suffix fileName) ∉ ["vtk", "obj", "ply", "stl"] →
        o.scene = removeDataSet s) ∧
      (∀ p ∈ [("vtk", ReaderKind.dataSetReader), ("obj", ReaderKind.objReader),
          ("ply", ReaderKind.plyReader), ("stl", ReaderKind.stlReader)],
        (suffix fileName).data.map Char.toLower = p.1.data →
          o.readerCalls = [⟨p.2, cStr fileName⟩]) ∧
      (∃ o1, openFile files vtk s "dir.d/MESH.Stl" = some o1 ∧
        o1.readerCalls = [⟨.stlReader, "dir.d/MESH.Stl"⟩]) ∧
      (∃ o2, openFile files vtk s "model.VTK" = some o2 ∧
        o2.readerCalls = [⟨.dataSetReader, "model.VTK"⟩]) ∧
      (∃ o3, openFile files vtk s "mesh.stlx" = some o3 ∧ o3.readerCalls = []) ∧
      (∃ o4, openFile files vtk s "notes.TXT" = some o4 ∧ o4.readerCalls = []) := by
  obtain ⟨o, e, hcalls, hiff, hearly⟩ := openFile_readerCalls files vtk s fileName
  refine ⟨o, e, hcalls, hiff, hearly, ?_, ?_, ?_, ?_, ?_⟩
  · intro p hp hsuf
    simp only [List.mem_cons, List.mem_singleton, List.not_mem_nil, or_false] at hp
    rcases hp with rfl | rfl | rfl | rfl
    · have hq := qToLower_eq_of_map_toLower (suffix fileName) "vtk" (by decide) hsuf
      rw [hcalls, hq]
      rfl
    · have hq := qToLower_eq_of_map_toLower (suffix fileName) "obj" (by decide) hsuf
      rw [hcalls, hq]
      rfl
    · have hq := qToLower_eq_of_map_toLower (suffix fileName) "ply" (by decide) hsuf
      rw [hcalls, hq]
      rfl
    · have hq := qToLower_eq_of_map_toLower (suffix fileName) "stl" (by decide) hsuf
      rw [hcalls, hq]
      rfl
  · obtain ⟨o1, e1, h1, -⟩ := openFile_readerCalls files vtk s "dir.d/MESH.Stl"
    exact ⟨o1, e1, h1.trans (by decide)⟩
  · obtain ⟨o2, e2, h2, -⟩ := openFile_readerCalls files vtk s "model.VTK"
    exact ⟨o2, e2, h2.trans (by decide)⟩
  · obtain ⟨o3, e3, h3, -⟩ := openFile_readerCalls files vtk s "mesh.stlx"
    exact ⟨o3, e3, h3.trans (by decide)⟩
  · obtain ⟨o4, e4, h4, -⟩ := openFile_readerCalls files vtk s "notes.TXT"
    exact ⟨o4, e4, h4.trans (by decide)⟩

theorem openFile_upper_case_suffix :
    (openFile sampleFiles sampleVtk SceneWidget.new "dir.d/MESH.Stl").map
      (fun o => o.readerCalls) = some [⟨.stlReader, "dir.d/MESH.Stl"⟩] := by
  decide

/-! ## Saving (C6) -/

theorem cStr_eq_self (s : String) (h : Char.ofNat 0 ∉ s.data) : cStr s = s := by
  unfold cStr
  have : s.data.takeWhile (fun c => decide (c ≠ Char.ofNat 0)) = s.data := by
    rw [List.takeWhile_eq_self_iff]
    intro c hc
    have : c ≠ Char.ofNat 0 := fun hc0 => h (hc0 ▸ hc)
    simpa using this
  rw [this]

theorem endsWithCI_append (p e : String) : endsWithCI (p ++ e) e = true := by
  unfold endsWithCI
  rw [decide_eq_true_iff, String.data_append, List.map_append]
  exact List.suffix_append _ _

theorem exportSceneToJPG_of_ne (filename : String) (h : filename ≠ "") :
    exportSceneToJPG filename = (true, [filename]) := by
  unfold exportSceneToJPG
  have : filename.isEmpty = false := by
    rw [Bool.eq_false_iff]
    intro he
    exact h ((String.isEmpty_iff filename).mp he)
  simp [this]

/-- C6: for every non-empty save path without a NUL character, as a file dialog returns
it, `MainWindow::showSaveFileDialog` hands to `exportSceneToJPG`, and this on to the JPEG
writer, the path itself when it ends, case-insensitively, with ".jpg" or ".jpeg", and the
path with ".jpg" appended otherwise.  The path handed on always ends, case-insensitively,
with one of the two extensions, and the path "out" gives the file "out.jpg". -/
theorem showSaveFileDialog_path (path : String) (hne : path ≠ "")
    (hnul : Char.ofNat 0 ∉ path.data) :
    (showSaveFileDialog path).exportArgument =
      some (if endsWithCI path ".jpg" = true ∨ endsWithCI path ".jpeg" = true then path
        else path ++ ".jpg") ∧
    (showSaveFileDialog path).jpegFiles =
      [if endsWithCI path ".jpg" = true ∨ endsWithCI path ".jpeg" = true then path
        else path ++ ".jpg"] ∧
    (∀ p, (showSaveFileDialog path).exportArgument = some p →
      endsWithCI p ".jpg" = true ∨ endsWithCI p ".jpeg" = true) ∧
    (showSaveFileDialog "out").exportArgument = some "out.jpg" ∧
    (showSaveFileDialog "out").jpegFiles = ["out.jpg"] := by
  have hemp : path.isEmpty = false := by
    rw [Bool.eq_false_iff]
    intro he
    exact hne ((String.isEmpty_iff path).mp he)
  have hnul2 : Char.ofNat 0 ∉ (path ++ ".jpg").data := by
    rw [String.data_append, List.mem_append]
    rintro (h | h)
    · exact hnul h
    · revert h
      decide
  have hne2 : path ++ ".jpg" ≠ "" := by
    intro h
    have := congrArg String.length h
    simp only [String.length_append] at this
    have h4 : (".jpg" : String).length = 4 := by decide
    have h0 : ("" : String).length = 0 := by decide
    omega
  have harg : (showSaveFileDialog path).exportArgument =
      some (if endsWithCI path ".jpg" = true ∨ endsWithCI path ".jpeg" = true then path
        else path ++ ".jpg") ∧
    (showSaveFileDialog path).jpegFiles =
      [if endsWithCI path ".jpg" = true ∨ endsWithCI path ".jpeg" = true then path
        else path ++ ".jpg"] := by
    unfold showSaveFileDialog
    by_cases h : endsWithCI path ".jpg" = true ∨ endsWithCI path ".jpeg" = true
    · have hc : (!endsWithCI path ".jpg" && !endsWithCI path ".jpeg") = false := by
        rcases h with h | h <;> simp [h]
      simp [hemp, hc, h, cStr_eq_self path hnul, exportSceneToJPG_of_ne path hne]
    · have hc : (!endsWithCI path ".jpg" && !endsWithCI path ".jpeg") = true := by
        simp only [not_or, Bool.not_eq_true] at h
        simp [h.1, h.2]
      simp [hemp, hc, h, cStr_eq_self _ hnul2, exportSceneToJPG_of_ne _ hne2]
  refine ⟨harg.1, harg.2, ?_, by decide, by decide⟩
  intro p hp
  rw [harg.1] at hp
  have hp2 := Option.some.inj hp
  by_cases h : endsWithCI path ".jpg" = true ∨ endsWithCI path ".jpeg" = true
  · rw [if_pos h] at hp2
    rw [← hp2]
    exact h
  · rw [if_neg h] at hp2
    rw [← hp2]
    exact Or.inl (endsWithCI_append path ".jpg")

/-- The save paths "Shot.JPeg" and "shot.png". -/
theorem showSaveFileDialog_path_witness :
    ("Shot.JPeg" ≠ "" ∧ Char.ofNat 0 ∉ "Shot.JPeg".data ∧
      (showSaveFileDialog "Shot.JPeg").jpegFiles = ["Shot.JPeg"]) ∧
    ("shot.png" ≠ "" ∧ Char.ofNat 0 ∉ "shot.png".data ∧
      (showSaveFileDialog "shot.png").jpegFiles = ["shot.png.jpg"]) :=
  ⟨⟨by decide, by decide,
      (showSaveFileDialog_path "Shot.JPeg" (by decide) (by decide)).2.1⟩,
    ⟨by decide, by decide,
      (showSaveFileDialog_path "shot.png" (by decide) (by decide)).2.1⟩⟩

/-! ## Viewports (C9) -/

theorem viewport_topLeft :
    (SceneWidget.new.renderer .topLeft).viewport = (0, 1 / 2, 1 / 2, 1) := by
  simp only [SceneWidget.new, createRenderer, SceneWidget.renderer]
  norm_num

theorem viewport_topRight :
    (SceneWidget.new.renderer .topRight).viewport = (1 / 2, 1 / 2, 1, 1) := by
  simp only [SceneWidget.new, createRenderer, SceneWidget.renderer]
  norm_num

theorem viewport_bottomLeft :
    (SceneWidget.new.renderer .bottomLeft).viewport = (0, 0, 1 / 2, 1 / 2) := by
  simp only [SceneWidget.new, createRenderer, SceneWidget.renderer]
  norm_num

theorem viewport_bottomRight :
    (SceneWidget.new.renderer .bottomRight).viewport = (1 / 2, 0, 1, 1 / 2) := by
  simp only [SceneWidget.new, createRenderer, SceneWidget.renderer]
  norm_num

/-- C9: the viewports `(xmin, ymin, xmax, ymax)` the `SceneWidget` constructor gives its
four renderers have all coordinates in [0, 1], with xmin < xmax and ymin < ymax, each is
half the window wide and half the window high, every point of the unit square lies in at
least one of them, and no point lies in the interior of two of them. -/
theorem viewports_partition :
    (∀ i, 0 ≤ (SceneWidget.new.renderer i).viewport.1 ∧
      (SceneWidget.new.renderer i).viewport.1 < (SceneWidget.new.renderer i).viewport.2.2.1 ∧
      (SceneWidget.new.renderer i).viewport.2.2.1 ≤ 1 ∧
      0 ≤ (SceneWidget.new.renderer i).viewport.2.1 ∧
      (SceneWidget.new.renderer i).viewport.2.1 < (SceneWidget.new.renderer i).viewport.2.2.2 ∧
      (SceneWidget.new.renderer i).viewport.2.2.2 ≤ 1 ∧
      (SceneWidget.new.renderer i).viewport.2.2.1 - (SceneWidget.new.renderer i).viewport.1
        = 1 / 2 ∧
      (SceneWidget.new.renderer i).viewport.2.2.2 - (SceneWidget.new.renderer i).viewport.2.1
        = 1 / 2) ∧
    (∀ x y : ℝ, 0 ≤ x → x ≤ 1 → 0 ≤ y → y ≤ 1 →
      ∃ i, regionContains (SceneWidget.new.renderer i).viewport x y) ∧
    (∀ i j, i ≠ j → ∀ x y : ℝ,
      ¬ (regionInterior (SceneWidget.new.renderer i).viewport x y ∧
        regionInterior (SceneWidget.new.renderer j).viewport x y)) := by
  refine ⟨?_, ?_, ?_⟩
  · intro i
    cases i
    · rw [viewport_topLeft]; norm_num
    · rw [viewport_topRight]; norm_num
    · rw [viewport_bottomLeft]; norm_num
    · rw [viewport_bottomRight]; norm_num
  · intro x y hx0 hx1 hy0 hy1
    by_cases hx : x ≤ 1 / 2
    · by_cases hy : y ≤ 1 / 2
      · refine ⟨.bottomLeft, ?_⟩
        rw [viewport_bottomLeft]
        simp only [regionContains]
        push_cast
        exact ⟨hx0, hx, hy0, hy⟩
      · refine ⟨.topLeft, ?_⟩
        rw [viewport_topLeft]
        simp only [regionContains]
        push_cast
        exact ⟨hx0, hx, le_of_lt (not_le.mp hy), hy1⟩
    · by_cases hy : y ≤ 1 / 2
      · refine ⟨.bottomRight, ?_⟩
        rw [viewport_bottomRight]
        simp only [regionContains]
        push_cast
        exact ⟨le_of_lt (not_le.mp hx), hx1, hy0, hy⟩
      · refine ⟨.topRight, ?_⟩
        rw [viewport_topRight]
        simp only [regionContains]
        push_cast
        exact ⟨le_of_lt (not_le.mp hx), hx1, le_of_lt (not_le.mp hy), hy1⟩
  · intro i j hij x y
    rintro ⟨⟨a1, a2, a3, a4⟩, ⟨b1, b2, b3, b4⟩⟩
    cases i <;> cases j <;>
      first
      | exact hij rfl
      | (simp only [viewport_topLeft, viewport_topRight, viewport_bottomLeft,
          viewport_bottomRight] at a1 a2 a3 a4 b1 b2 b3 b4
         push_cast at a1 a2 a3 a4 b1 b2 b3 b4
         linarith)

/-- The centre of the window lies in a viewport. -/
theorem viewports_partition_witness :
    (0 : ℝ) ≤ 1 / 2 ∧ (1 / 2 : ℝ) ≤ 1 ∧
    ∃ i, regionContains (SceneWidget.new.renderer i).viewport (1 / 2) (1 / 2) :=
  ⟨by norm_num, by norm_num,
    viewports_partition.2.1 (1 / 2) (1 / 2) (by norm_num) (by norm_num) (by norm_num)
      (by norm_num)⟩

end QtVtkViewer
